import Mathlib

/-!
Verification development for the ChargePoint Home Assistant custom integration
(`custom_components/chargepoint`): a shallow embedding in Lean 4 of the
credential-shape check, the cookie importer, the refresh/update routine, the
config-flow login classifier and the monkeypatched client login, together with
theorems settling the specified properties.
-/

namespace ChargePoint

/-! ## Bearer-token shape check (`_JWT_RE` in `__init__.py`)

The source compiles the Python regex
`^[A-Za-z0-9_\-]+\.[A-Za-z0-9_\-]+\.[A-Za-z0-9_\-]+$`
and tests candidate tokens with `re.match`.  We embed the exact Python
semantics: `re.match` anchors at position 0, and `$` (without `re.MULTILINE`)
matches at the end of the string or just before a single trailing newline. -/

/-- Characters admitted by the character class `[A-Za-z0-9_\-]`. -/
def urlSafeChar (c : Char) : Bool :=
  c.isAlpha || c.isDigit || c = '_' || c = '-'

/-- Split a character list at every occurrence of `sep`, keeping empty
segments, as Python `str.split(sep)` does on a non-empty separator. -/
def splitSep (sep : Char) : List Char → List (List Char)
  | [] => [[]]
  | c :: rest =>
    if c = sep then [] :: splitSep sep rest
    else
      match splitSep sep rest with
      | [] => [[c]]
      | s :: ss => (c :: s) :: ss

/-- Split a character list at every literal dot, mirroring how the regex
`A\.A\.A` decomposes its subject. -/
def splitOnDot : List Char → List (List Char) := splitSep '.'

/-- A single regex segment `[A-Za-z0-9_\-]+`: non-empty, all characters in the
class. -/
def segOk (l : List Char) : Bool :=
  !l.isEmpty && l.all urlSafeChar

/-- The pure three-segment shape `seg.seg.seg` that the spec describes:
exactly three dot-separated non-empty segments of URL-safe characters. -/
def jwtShape (l : List Char) : Bool :=
  match splitOnDot l with
  | [a, b, c] => segOk a && segOk b && segOk c
  | _ => false

/-- Python `_JWT_RE.match(s) is not None`.  Because `$` also matches just
before one trailing newline, a subject ending in a single `\n` whose prefix has
the three-segment shape is accepted as well. -/
def jwtReMatch (l : List Char) : Bool :=
  jwtShape l || (l.getLast? = some '\n' && jwtShape l.dropLast)

/-- String-level wrapper for `jwtReMatch`. -/
def jwtMatchStr (s : String) : Bool := jwtReMatch s.toList

/-- String-level wrapper for the spec's three-segment shape. -/
def jwtShapeStr (s : String) : Bool := jwtShape s.toList

/-- Token selection in `async_setup_entry` (`__init__.py`, lines 107-131).
In cookie-auth mode the candidate is the `auth-session` cookie value (already
known to be non-empty when present); otherwise it is the stored token, guarded
by Python truthiness (non-empty) and the regex.  Any failing candidate is
replaced by `None`. -/
def token_to_pass (use_cookie_auth : Bool) (cookie_jwt : Option String)
    (stored_token : String) : Option String :=
  if use_cookie_auth then
    match cookie_jwt with
    | some j => if j ≠ "" && jwtMatchStr j then some j else none
    | none => none
  else
    if stored_token ≠ "" && jwtMatchStr stored_token then some stored_token
    else none

/-! ## Cookie importer (`cookies.py` and `config_flow.py`)

`_save_cookies_json` (config_flow.py) validates and persists the raw cookie
input; `load_cookies` (cookies.py) reads the persisted records back and fills
a `RequestsCookieJar`. -/

/-- One persisted cookie record, as a JSON object with optional fields.
`none` models an absent key (Python `item.get(...)` returning `None`). -/
structure CookieRecord where
  name : Option String
  value : Option String
  domain : Option String
  path : Option String
deriving DecidableEq, Repr

/-- The fixed list `domains` in `load_cookies` (cookies.py, lines 31-37). -/
def cpDomains : List String :=
  [".chargepoint.com", "chargepoint.com", "www.chargepoint.com",
   "account.chargepoint.com", "ca.chargepoint.com"]

/-- The jar produced by `load_cookies` from the persisted records, as the list
of `jar.set(name, value, domain=d, path="/")` calls it performs, in order.
A record whose name is absent or empty, or whose value is absent, is skipped
(`if not name or value is None: continue`); every kept record is added once
per entry of `cpDomains`.  The record's own `domain` field is never read. -/
def load_cookies_jar (data : List CookieRecord) : List (String × String × String) :=
  data.flatMap fun item =>
    match item.name, item.value with
    | some n, some v => if n = "" then [] else cpDomains.map fun d => (n, v, d)
    | _, _ => []

/-- A record that `load_cookies` keeps: present non-empty name, present value. -/
def validRecord (r : CookieRecord) : Bool :=
  match r.name, r.value with
  | some n, some _ => !(n = "")
  | _, _ => false

/-- Split a character list at the first occurrence of `sep`, mirroring Python
`part.split(sep, 1)` when `sep` occurs; `none` when it does not occur. -/
def splitOnce (sep : Char) : List Char → Option (List Char × List Char)
  | [] => none
  | x :: xs =>
    if x = sep then some ([], xs)
    else
      match splitOnce sep xs with
      | some (a, b) => some (x :: a, b)
      | none => none

/-- The whitespace set of Python `str.strip()`. -/
def isPyWs (c : Char) : Bool :=
  c = ' ' || c = '\t' || c = '\n' || c = '\r' || c = '\x0b' || c = '\x0c'

/-- Python `str.strip()`: remove leading and trailing whitespace. -/
def pyStrip (l : List Char) : List Char :=
  ((l.dropWhile isPyWs).reverse.dropWhile isPyWs).reverse

/-- The inner `parse_header` of `_save_cookies_json` (config_flow.py, lines
95-110): split the header on `;`, strip each part, skip parts that are empty
or have no `=`, split the rest once on `=`, and build a record with the fixed
domain `.chargepoint.com` and path `/`. -/
def parse_header (header : String) : List CookieRecord :=
  (splitSep ';' header.toList).filterMap fun part =>
    let part := pyStrip part
    if part.isEmpty || !(part.contains '=') then none
    else
      match splitOnce '=' part with
      | none => none
      | some (n, v) =>
        some ⟨some (String.mk (pyStrip n)), some (String.mk (pyStrip v)),
              some ".chargepoint.com", some "/"⟩

/-- Result of Python `json.loads` on the raw input, abstracted: `json.loads`
is standard-library code outside this repository.  `notJson` models a raised
`JSONDecodeError`. -/
inductive JsonResult
  | notJson
  | jsonNonList
  | jsonList (items : List CookieRecord)

/-- The distinct failure exits of `_save_cookies_json`. -/
inductive SaveError
  | empty
  | decodeError
  | nonListJson
  | headerUnparsable
deriving DecidableEq, Repr

/-- Model of `_save_cookies_json` (config_flow.py, lines 92-128), up to the disk write:
strip the input; empty fails; input starting with `[` goes through
`json.loads` and must be a list; anything else is parsed as a header string
and fails when no record was parsed. -/
def save_cookies_json (jsonLoads : String → JsonResult) (raw : String) :
    Except SaveError (List CookieRecord) :=
  let stripped := pyStrip raw.toList
  if stripped.isEmpty then .error .empty
  else if stripped.head? = some '[' then
    match jsonLoads (String.mk stripped) with
    | .notJson => .error .decodeError
    | .jsonNonList => .error .nonListJson
    | .jsonList items => .ok items
  else
    let data := parse_header (String.mk stripped)
    if data = [] then .error .headerUnparsable else .ok data

deriving instance DecidableEq for Except

/-! ## Refresh cycle (`async_update_data` in `__init__.py`, lines 173-253)

The update routine fetches, in one `try` block: account info, user charging
status, (if a status is present) the charging-session detail, the home-charger
list, and per charger its status and technical info.  `ChargePointInvalidSession`
is handled by the first `except` clause: in cookie-auth mode it raises
`ConfigEntryAuthFailed("cookie_expired")`; otherwise, on the first attempt it
calls `client.login` and retries once (`is_retry=True`), and on the retry it
raises `UpdateFailed("invalid session after retry")`.
`ChargePointCommunicationException` raises a bare `UpdateFailed`.
We model the remote calls as a table of per-call results and record the calls
made, in order, as a trace. -/

/-- Opaque account payload (`ChargePointAccount`). -/
structure ChargePointAccount where
  user_id : Nat
deriving DecidableEq, Repr

/-- User charging status; the update routine only uses its `session_id`. -/
structure UserChargingStatus where
  session_id : Nat
deriving DecidableEq, Repr

/-- Charging-session detail payload. -/
structure ChargingSession where
  session_id : Nat
  device_id : Nat
deriving DecidableEq, Repr

/-- Per-charger status payload. -/
structure HomeChargerStatus where
  charger_id : Nat
deriving DecidableEq, Repr

/-- Per-charger technical-info payload. -/
structure HomeChargerTechnicalInfo where
  software_version : String
deriving DecidableEq, Repr

/-- The classified ChargePoint exceptions a remote fetch can raise that the
update routine's `except` clauses handle: `ChargePointInvalidSession` and a
`ChargePointCommunicationException` that is not an invalid-session fault. -/
inductive FetchFault
  | invalidSession
  | communication
deriving DecidableEq, Repr

/-- One remote call made by the update routine, in trace order.  `loginCall`
records the `client.login(username, password)` call of the re-login path. -/
inductive FetchEv
  | account
  | chargingStatus
  | chargingSession (session_id : Nat)
  | homeChargers
  | chargerStatus (charger : Nat)
  | chargerTech (charger : Nat)
  | loginCall
deriving DecidableEq, Repr

/-- The `data` dict built by `async_update_data`: `ACCT_INFO`,
`ACCT_CRG_STATUS`, `ACCT_SESSION` (all initialised to `None`) and
`ACCT_HOME_CRGS` (initialised to an empty dict, here an ordered association
list keyed by charger id). -/
structure SnapshotData where
  acct_info : Option ChargePointAccount
  acct_crg_status : Option UserChargingStatus
  acct_session : Option ChargingSession
  acct_home_crgs : List (Nat × HomeChargerStatus × HomeChargerTechnicalInfo)
deriving DecidableEq, Repr

/-- Results of the individual remote calls during one fetch attempt. -/
structure FetchResults where
  get_account : Except FetchFault ChargePointAccount
  get_user_charging_status : Except FetchFault (Option UserChargingStatus)
  get_charging_session : Nat → Except FetchFault ChargingSession
  get_home_chargers : Except FetchFault (List Nat)
  get_home_charger_status : Nat → Except FetchFault HomeChargerStatus
  get_home_charger_technical_info : Nat → Except FetchFault HomeChargerTechnicalInfo

/-- The per-charger loop (`for charger in home_chargers`): fetch the charger's
status, then its technical info, and store the pair under the charger's key;
the first raised fault aborts the whole `try` body. -/
def chargerLoop (fr : FetchResults) :
    List Nat → List (Nat × HomeChargerStatus × HomeChargerTechnicalInfo) →
    Except FetchFault (List (Nat × HomeChargerStatus × HomeChargerTechnicalInfo))
      × List FetchEv
  | [], acc => (.ok acc, [])
  | c :: rest, acc =>
    match fr.get_home_charger_status c with
    | .error e => (.error e, [.chargerStatus c])
    | .ok st =>
      match fr.get_home_charger_technical_info c with
      | .error e => (.error e, [.chargerStatus c, .chargerTech c])
      | .ok ti =>
        let r := chargerLoop fr rest (acc ++ [(c, st, ti)])
        (r.1, .chargerStatus c :: .chargerTech c :: r.2)

/-- The body of the `try` block of `async_update_data`: the sequential fetches
in source order, together with the trace of calls made.  A raised fault stops
the body at that call. -/
def runFetch (fr : FetchResults) : Except FetchFault SnapshotData × List FetchEv :=
  match fr.get_account with
  | .error e => (.error e, [.account])
  | .ok account =>
    match fr.get_user_charging_status with
    | .error e => (.error e, [.account, .chargingStatus])
    | .ok crg_status =>
      let sessStep : Except FetchFault (Option ChargingSession) × List FetchEv :=
        match crg_status with
        | some st =>
          match fr.get_charging_session st.session_id with
          | .error e => (.error e, [.chargingSession st.session_id])
          | .ok s => (.ok (some s), [.chargingSession st.session_id])
        | none => (.ok none, [])
      match sessStep with
      | (.error e, tr) => (.error e, .account :: .chargingStatus :: tr)
      | (.ok sess, tr) =>
        match fr.get_home_chargers with
        | .error e => (.error e, .account :: .chargingStatus :: tr ++ [.homeChargers])
        | .ok chargers =>
          let r := chargerLoop fr chargers []
          match r.1 with
          | .error e =>
            (.error e, .account :: .chargingStatus :: tr ++ .homeChargers :: r.2)
          | .ok crgs =>
            (.ok ⟨some account, crg_status, sess, crgs⟩,
             .account :: .chargingStatus :: tr ++ .homeChargers :: r.2)

/-- Outcome of `client.login(username, password)` in the re-login path:
success, or a raised `ChargePointLoginError` (which the surrounding `try`
turns into `ConfigEntryAuthFailed`). -/
inductive LoginResult
  | ok
  | loginError
deriving DecidableEq, Repr

/-- The client across one refresh cycle: the fetch results seen before any
re-login, the fetch results seen after a successful re-login, and what
`client.login` does. -/
structure Client where
  preLogin : FetchResults
  postLogin : FetchResults
  login : LoginResult

/-- Externally visible outcome of one update cycle.  `authFailed` models a
raised `ConfigEntryAuthFailed` (the "credentials needed" signal);
`updateFailed` models a raised `UpdateFailed` (the transient-failure signal). -/
inductive UpdateOutcome
  | success (d : SnapshotData)
  | authFailed (reason : String)
  | updateFailed (msg : String)
deriving DecidableEq, Repr

/-- Whether an outcome is the "credentials needed" signal
(`ConfigEntryAuthFailed`). -/
def isCredentialsNeeded : UpdateOutcome → Bool
  | .authFailed _ => true
  | _ => false

/-- Whether an outcome delivered a snapshot. -/
def isSuccess : UpdateOutcome → Bool
  | .success _ => true
  | _ => false

/-- Model of `async_update_data(is_retry=True)` (`__init__.py`, lines 173-253): the
recursive call's instance.  With `is_retry` true the invalid-session handler
does not recurse again: in cookie-auth mode it raises
`ConfigEntryAuthFailed("cookie_expired")`, otherwise it raises
`UpdateFailed("invalid session after retry")`.  The source writes one
recursive function guarded by the `is_retry` flag; since the recursion depth
is bounded at one, we unroll it into this retry instance and
`async_update_data` below. -/
def async_update_retry (use_cookie_auth : Bool) (fr : FetchResults) :
    UpdateOutcome × List FetchEv :=
  match runFetch fr with
  | (.ok d, tr) => (.success d, tr)
  | (.error .invalidSession, tr) =>
    if use_cookie_auth then (.authFailed "cookie_expired", tr)
    else (.updateFailed "invalid session after retry", tr)
  | (.error .communication, tr) => (.updateFailed "", tr)

/-- Model of `async_update_data(is_retry=False)` (`__init__.py`, lines 173-253): run
the `try` body; on `ChargePointInvalidSession`, in cookie-auth mode raise
`ConfigEntryAuthFailed("cookie_expired")`; otherwise call `client.login` and
retry exactly once via `async_update_retry` (a raised `ChargePointLoginError`
becomes `ConfigEntryAuthFailed`).  On `ChargePointCommunicationException`,
raise a bare `UpdateFailed`. -/
def async_update_data (use_cookie_auth : Bool) (client : Client)
    (fr : FetchResults) : UpdateOutcome × List FetchEv :=
  match runFetch fr with
  | (.ok d, tr) => (.success d, tr)
  | (.error .invalidSession, tr) =>
    if use_cookie_auth then (.authFailed "cookie_expired", tr)
    else
      match client.login with
      | .ok =>
        let r := async_update_retry use_cookie_auth client.postLogin
        (r.1, tr ++ .loginCall :: r.2)
      | .loginError => (.authFailed "login_error", tr ++ [.loginCall])
  | (.error .communication, tr) => (.updateFailed "", tr)

/-- One refresh cycle as the coordinator drives it: `async_update_data()` with
the default `is_retry=False`, starting from the pre-login fetch results. -/
def async_refresh (use_cookie_auth : Bool) (client : Client) :
    UpdateOutcome × List FetchEv :=
  async_update_data use_cookie_auth client client.preLogin

/-- Fetch results where every remote call raises `ChargePointInvalidSession`
(an expired or rejected session). -/
def frInvalid : FetchResults :=
  { get_account := .error .invalidSession
    get_user_charging_status := .error .invalidSession
    get_charging_session := fun _ => .error .invalidSession
    get_home_chargers := .error .invalidSession
    get_home_charger_status := fun _ => .error .invalidSession
    get_home_charger_technical_info := fun _ => .error .invalidSession }

/-- Fetch results where account info and charging status succeed (no active
session) but the home-charger listing raises a communication fault. -/
def frChargersFail : FetchResults :=
  { get_account := .ok ⟨1⟩
    get_user_charging_status := .ok none
    get_charging_session := fun _ => .ok ⟨0, 0⟩
    get_home_chargers := .error .communication
    get_home_charger_status := fun _ => .ok ⟨0⟩
    get_home_charger_technical_info := fun _ => .ok ⟨"v1"⟩ }

/-- Fetch results where everything succeeds except the status fetch of
charger `5`, the first of two listed chargers. -/
def frCharger5Fails : FetchResults :=
  { get_account := .ok ⟨1⟩
    get_user_charging_status := .ok none
    get_charging_session := fun _ => .ok ⟨0, 0⟩
    get_home_chargers := .ok [5, 7]
    get_home_charger_status := fun c =>
      if c = 5 then .error .communication else .ok ⟨c⟩
    get_home_charger_technical_info := fun _ => .ok ⟨"v1"⟩ }

/-- Fetch results where everything succeeds: an active session `42` on
device `5`, and two chargers `5` and `7`. -/
def frOk : FetchResults :=
  { get_account := .ok ⟨1⟩
    get_user_charging_status := .ok (some ⟨42⟩)
    get_charging_session := fun sid => .ok ⟨sid, 5⟩
    get_home_chargers := .ok [5, 7]
    get_home_charger_status := fun c => .ok ⟨c⟩
    get_home_charger_technical_info := fun _ => .ok ⟨"v1"⟩ }

/-- The session-detail call the update routine makes between the charging
status and the device list: present exactly when a charging status came
back (`if crg_status:`). -/
def sessEvts : Option UserChargingStatus → List FetchEv
  | some s => [FetchEv.chargingSession s.session_id]
  | none => []

/-- Number of `client.login` calls recorded in a trace: the number of
re-authentication attempts of the cycle. -/
def countLogin : List FetchEv → Nat
  | [] => 0
  | .loginCall :: tr => countLogin tr + 1
  | _ :: tr => countLogin tr

/-- Number of `get_account` calls recorded in a trace.  The account fetch is
the first call of every fetch attempt, so this counts the fetch attempts the
cycle started. -/
def countAccount : List FetchEv → Nat
  | [] => 0
  | .account :: tr => countAccount tr + 1
  | _ :: tr => countAccount tr

/-! ## Config-flow login (`config_flow.py`, `_login`, lines 140-204)

`_login` constructs a `ChargePoint` client once (the monkeypatch makes the
constructor's login a no-op), reads `client.session_token`, and when the token
is falsy tries a cookie-presence fallback guarded by
`from .monkeypatch import _has_auth_cookies`.  A raised
`ChargePointLoginError` is classified by inspecting the response: a JSON body
with `errorId` 9 or 241 gives dedicated codes, a non-JSON body containing an
anti-bot marker gives `"antibot_challenge"`. -/

/-- Substring containment on character lists, Python `needle in haystack`. -/
def containsSub (need : List Char) : List Char → Bool
  | [] => need.isEmpty
  | c :: rest => need.isPrefixOf (c :: rest) || containsSub need rest

/-- The anti-bot challenge markers checked on `exc.response.text`
(config_flow.py, lines 186-191). -/
def hasAntibotMarkers (t : String) : Bool :=
  containsSub "captcha-delivery.com".toList t.toList ||
  containsSub "Please enable JS".toList t.toList ||
  containsSub "DataDome".toList t.toList

/-- Observable content of a `ChargePointLoginError`'s response: `json = some j`
models `.json()` returning a dict whose `errorId` is `j` (`none` for an absent
or null `errorId`); `json = none` models `.json()` raising (non-JSON body).
`text = none` models `.text` raising. -/
structure LoginErrResponse where
  json : Option (Option Int)
  text : Option String
deriving DecidableEq, Repr

/-- What the `ChargePoint(username, password)` construction inside `_login`
does: succeed with the client's `session_token`, or raise one of the caught
exception classes. -/
inductive CtorResult
  | ok (session_token : Option String)
  | loginError (resp : LoginErrResponse)
  | commError
  | otherError
deriving DecidableEq, Repr

/-- The `except ChargePointLoginError` classifier of `_login` (config_flow.py,
lines 171-196): start from `error_code = "auth_failed"`; on a JSON body map
`errorId` 9 and 241 to dedicated codes and any other truthy id to its string;
on a non-JSON body return `"antibot_challenge"` when an anti-bot marker occurs
in the text. -/
def classifyLoginError (resp : LoginErrResponse) : String :=
  match resp.json with
  | some errorId =>
    if errorId = some 9 then "invalid_credentials"
    else if errorId = some 241 then "account_locked"
    else
      match errorId with
      | some i => if i = 0 then "auth_failed" else toString i
      | none => "auth_failed"
  | none =>
    match resp.text with
    | some t => if hasAntibotMarkers t then "antibot_challenge" else "auth_failed"
    | none => "auth_failed"

/-- The Python global names defined at module scope in `monkeypatch.py`
(imports and top-level definitions).  `_has_auth_cookies` is not among them,
so `from .monkeypatch import _has_auth_cookies` raises `ImportError`. -/
def monkeypatch_globals : List String :=
  ["annotations", "logging", "Optional", "_LOGGER", "_scraper",
   "_build_scraper", "ensure_scraper", "_set_logged_flags",
   "mark_authorized", "apply_scoped_patch"]

/-- The synthetic JWT-like token the cookie-presence fallback would return. -/
def synthetic_cookie_token : String := "eyJhbGciOiJIUzI1NiJ9.cookie.auth"

/-- The fallback block of `_login` (config_flow.py, lines 155-166): import
`_has_auth_cookies` from the monkeypatch module; if the import succeeds and
cookies are present, return the synthetic token; an `ImportError` is swallowed
by `except Exception: pass` and the original falsy token is returned. -/
def cookie_fallback (token : Option String) (has_auth_cookies : Bool) :
    Option String × Option String :=
  if monkeypatch_globals.contains "_has_auth_cookies" then
    if has_auth_cookies then (some synthetic_cookie_token, none)
    else (token, none)
  else (token, none)

/-- Model of `_login` (config_flow.py, lines 140-204): returns
`(session_token, error_code)`.  `has_auth_cookies` is what the (missing)
`_has_auth_cookies()` helper would report. -/
def config_flow_login (ctor : CtorResult) (has_auth_cookies : Bool) :
    Option String × Option String :=
  match ctor with
  | .ok tok =>
    if tok = none || tok = some "" then cookie_fallback tok has_auth_cookies
    else (tok, none)
  | .loginError resp => (none, some (classifyLoginError resp))
  | .commError => (none, some "communication_error")
  | .otherError => (none, some "unknown")

/-- Outcome of the cookie-auth branch of `async_step_user` after `_login`
returned (config_flow.py, lines 248-265): set the base form error if an error
code came back, create the entry when a truthy session token came back, else
re-show the form with the recorded error or a default `auth_failed`. -/
inductive StepResult
  | createEntry (token : String)
  | showForm (base_error : String)
deriving DecidableEq, Repr

/-- The decision taken on `_login`'s result in the cookie-auth branch of
`async_step_user`. -/
def cookie_step_outcome (res : Option String × Option String) : StepResult :=
  match res.1 with
  | some tok =>
    if tok = "" then
      match res.2 with
      | some e => .showForm e
      | none => .showForm "auth_failed"
    else .createEntry tok
  | none =>
    match res.2 with
    | some e => .showForm e
    | none => .showForm "auth_failed"

/-! ## Monkeypatched client login (`monkeypatch.py`, lines 123-180)

`apply_scoped_patch` replaces `ChargePoint.login` with a wrapper that calls
`_inject` (install the shared scraper as the client's `_session` if it is not
already, then `_set_logged_flags`) and returns `True`, with no remote request.
We model the client's patched attributes as a record and the scraper by an
abstract identity. -/

/-- The client attributes the patched login touches: the `_session` object
(identified by an abstract id, `none` when absent or `None`) and the four
logged-in flags that `_set_logged_flags` sets. -/
structure PyClient where
  the_session : Option Nat
  flag_logged_in : Bool
  flag_logged_in_pub : Bool
  flag_is_logged_in : Bool
  flag_authenticated : Bool
deriving DecidableEq, Repr

/-- A remote request, for the patched login's (empty) network trace. -/
inductive NetEv
  | remoteRequest
deriving DecidableEq, Repr

/-- Model of `_set_logged_flags(obj)` (monkeypatch.py, lines 39-44): set the attributes
`_logged_in`, `logged_in`, `_is_logged_in`, `_authenticated` to `True`. -/
def set_logged_flags (c : PyClient) : PyClient :=
  { c with flag_logged_in := true, flag_logged_in_pub := true,
           flag_is_logged_in := true, flag_authenticated := true }

/-- Model of `_inject(self)` (monkeypatch.py, lines 136-144): install the shared
scraper as `self._session` unless it already is it, then set the flags. -/
def inject (scraper : Nat) (c : PyClient) : PyClient :=
  let c := if c.the_session = some scraper then c
           else { c with the_session := some scraper }
  set_logged_flags c

/-- The `_wrapped_login` that `apply_scoped_patch` installs as
`ChargePoint.login` (monkeypatch.py, lines 163-168): `_inject(self)` then
`return True`, for any arguments, performing no remote request. -/
def patched_login (scraper : Nat) (c : PyClient) (_args : List String) :
    Bool × PyClient × List NetEv :=
  (true, inject scraper c, [])

/-! ## Reassembling split character lists

Used to turn `splitSep`'s segment view back into the original subject, so the
regex acceptance can be stated as an explicit decomposition. -/

/-- Interleave `sep` back between segments: left inverse of `splitSep`. -/
def joinSep (sep : Char) : List (List Char) → List Char
  | [] => []
  | [s] => s
  | s :: ss => s ++ sep :: joinSep sep ss

example : jwtMatchStr "a.b.c" = true := by decide
example : jwtMatchStr "a..c" = false := by decide
example : jwtMatchStr "a.b" = false := by decide
example : jwtMatchStr "a.b.c\n" = true := by decide
example : jwtShapeStr "a.b.c\n" = false := by decide

example :
    parse_header "a=1; b=2" =
      [⟨some "a", some "1", some ".chargepoint.com", some "/"⟩,
       ⟨some "b", some "2", some ".chargepoint.com", some "/"⟩] := by decide

example :
    save_cookies_json (fun _ => .notJson) "\"a=1\"" =
      .ok [⟨some "\"a", some "1\"", some ".chargepoint.com", some "/"⟩] := by
  decide

example :
    async_refresh false ⟨frInvalid, frInvalid, .ok⟩ =
      (.updateFailed "invalid session after retry",
       [.account, .loginCall, .account]) := by decide

example :
    async_refresh true ⟨frInvalid, frInvalid, .ok⟩ =
      (.authFailed "cookie_expired", [.account]) := by decide

example :
    async_refresh false ⟨frChargersFail, frChargersFail, .ok⟩ =
      (.updateFailed "", [.account, .chargingStatus, .homeChargers]) := by decide

example :
    async_refresh false ⟨frOk, frOk, .ok⟩ =
      (.success ⟨some ⟨1⟩, some ⟨42⟩, some ⟨42, 5⟩,
                 [(5, ⟨5⟩, ⟨"v1"⟩), (7, ⟨7⟩, ⟨"v1"⟩)]⟩,
       [.account, .chargingStatus, .chargingSession 42, .homeChargers,
        .chargerStatus 5, .chargerTech 5, .chargerStatus 7, .chargerTech 7]) := by
  decide

theorem countLogin_append (l₁ l₂ : List FetchEv) :
    countLogin (l₁ ++ l₂) = countLogin l₁ + countLogin l₂ := by
  induction l₁ with
  | nil => simp [countLogin]
  | cons e tr ih =>
    cases e <;> simp [countLogin, ih]
    all_goals omega

theorem countAccount_append (l₁ l₂ : List FetchEv) :
    countAccount (l₁ ++ l₂) = countAccount l₁ + countAccount l₂ := by
  induction l₁ with
  | nil => simp [countAccount]
  | cons e tr ih =>
    cases e <;> simp [countAccount, ih]
    all_goals omega

theorem chargerLoop_countLogin (fr : FetchResults) (cs : List Nat)
    (acc : List (Nat × HomeChargerStatus × HomeChargerTechnicalInfo)) :
    countLogin (chargerLoop fr cs acc).2 = 0 := by
  induction cs generalizing acc with
  | nil => simp [chargerLoop, countLogin]
  | cons c rest ih =>
    simp only [chargerLoop]
    cases fr.get_home_charger_status c with
    | error e => simp [countLogin]
    | ok st =>
      cases fr.get_home_charger_technical_info c with
      | error e => simp [countLogin]
      | ok ti => simp [countLogin, ih]

theorem chargerLoop_countAccount (fr : FetchResults) (cs : List Nat)
    (acc : List (Nat × HomeChargerStatus × HomeChargerTechnicalInfo)) :
    countAccount (chargerLoop fr cs acc).2 = 0 := by
  induction cs generalizing acc with
  | nil => simp [chargerLoop, countAccount]
  | cons c rest ih =>
    simp only [chargerLoop]
    cases fr.get_home_charger_status c with
    | error e => simp [countAccount]
    | ok st =>
      cases fr.get_home_charger_technical_info c with
      | error e => simp [countAccount]
      | ok ti => simp [countAccount, ih]

theorem runFetch_countLogin (fr : FetchResults) :
    countLogin (runFetch fr).2 = 0 := by
  unfold runFetch
  rcases h1 : fr.get_account with e | a
  · simp [h1, countLogin]
  simp only [h1]
  rcases h2 : fr.get_user_charging_status with e | st?
  · simp [h2, countLogin]
  simp only [h2]
  cases st? with
  | none =>
    rcases h3 : fr.get_home_chargers with e | cs
    · simp [h3, countLogin]
    rcases h4 : (chargerLoop fr cs []).1 with e | crgs <;>
      simp [h3, h4, countLogin, countLogin_append, chargerLoop_countLogin]
  | some st =>
    rcases h3 : fr.get_charging_session st.session_id with e | s
    · simp [h3, countLogin]
    rcases h4 : fr.get_home_chargers with e | cs
    · simp [h3, h4, countLogin, countLogin_append]
    rcases h5 : (chargerLoop fr cs []).1 with e | crgs <;>
      simp [h3, h4, h5, countLogin, countLogin_append, chargerLoop_countLogin]

theorem runFetch_countAccount (fr : FetchResults) :
    countAccount (runFetch fr).2 = 1 := by
  unfold runFetch
  rcases h1 : fr.get_account with e | a
  · simp [h1, countAccount]
  simp only [h1]
  rcases h2 : fr.get_user_charging_status with e | st?
  · simp [h2, countAccount]
  simp only [h2]
  cases st? with
  | none =>
    rcases h3 : fr.get_home_chargers with e | cs
    · simp [h3, countAccount]
    rcases h4 : (chargerLoop fr cs []).1 with e | crgs <;>
      simp [h3, h4, countAccount, countAccount_append, chargerLoop_countAccount]
  | some st =>
    rcases h3 : fr.get_charging_session st.session_id with e | s
    · simp [h3, countAccount]
    rcases h4 : fr.get_home_chargers with e | cs
    · simp [h3, h4, countAccount, countAccount_append]
    rcases h5 : (chargerLoop fr cs []).1 with e | crgs <;>
      simp [h3, h4, h5, countAccount, countAccount_append, chargerLoop_countAccount]

theorem async_update_retry_trace (b : Bool) (fr : FetchResults) :
    (async_update_retry b fr).2 = (runFetch fr).2 := by
  unfold async_update_retry
  rcases h : runFetch fr with ⟨o, tr⟩
  cases o with
  | ok d => simp
  | error e => cases e <;> cases b <;> simp

theorem splitSep_ne_nil (sep : Char) (l : List Char) : splitSep sep l ≠ [] := by
  cases l with
  | nil => simp [splitSep]
  | cons c rest =>
    simp only [splitSep]
    by_cases h : c = sep
    · simp [h]
    · simp only [h, if_false]
      cases hs : splitSep sep rest <;> simp

theorem dropLast_append_of_getLast? {α : Type} (l : List α) (x : α)
    (h : l.getLast? = some x) : l.dropLast ++ [x] = l := by
  induction l with
  | nil => simp at h
  | cons a t ih =>
    cases t with
    | nil =>
      simp only [List.getLast?_singleton, Option.some.injEq] at h
      simp [h]
    | cons b t2 =>
      rw [List.getLast?_cons_cons] at h
      simpa using ih h

theorem joinSep_splitSep (sep : Char) (l : List Char) :
    joinSep sep (splitSep sep l) = l := by
  induction l with
  | nil => rfl
  | cons c rest ih =>
    simp only [splitSep]
    by_cases h : c = sep
    · subst h
      simp only [if_pos rfl]
      cases hs : splitSep c rest with
      | nil => exact absurd hs (splitSep_ne_nil c rest)
      | cons s ss =>
        rw [hs] at ih
        simpa [joinSep] using ih
    · simp only [h, if_false]
      cases hs : splitSep sep rest with
      | nil => exact absurd hs (splitSep_ne_nil sep rest)
      | cons s ss =>
        rw [hs] at ih
        cases ss with
        | nil => simpa [joinSep] using ih
        | cons s2 ss2 => simpa [joinSep] using ih

theorem jwtShape_decomp (l : List Char) (h : jwtShape l = true) :
    ∃ a b c, segOk a = true ∧ segOk b = true ∧ segOk c = true ∧
      l = a ++ '.' :: (b ++ '.' :: c) := by
  unfold jwtShape at h
  split at h
  next a b c heq =>
    simp only [Bool.and_eq_true] at h
    refine ⟨a, b, c, h.1.1, h.1.2, h.2, ?_⟩
    have hj := joinSep_splitSep '.' l
    unfold splitOnDot at heq
    rw [heq] at hj
    simpa [joinSep] using hj.symm
  next => exact absurd h (by simp)

theorem jwtReMatch_decomp (l : List Char) (h : jwtReMatch l = true) :
    ∃ a b c, segOk a = true ∧ segOk b = true ∧ segOk c = true ∧
      (l = a ++ '.' :: (b ++ '.' :: c) ∨
       l = (a ++ '.' :: (b ++ '.' :: c)) ++ ['\n']) := by
  unfold jwtReMatch at h
  rcases Bool.or_eq_true_iff.mp h with h1 | h2
  · obtain ⟨a, b, c, ha, hb, hc, hl⟩ := jwtShape_decomp l h1
    exact ⟨a, b, c, ha, hb, hc, Or.inl hl⟩
  · simp only [Bool.and_eq_true, decide_eq_true_eq] at h2
    obtain ⟨hlast, hshape⟩ := h2
    obtain ⟨a, b, c, ha, hb, hc, hl⟩ := jwtShape_decomp l.dropLast hshape
    refine ⟨a, b, c, ha, hb, hc, Or.inr ?_⟩
    rw [← hl]
    exact (dropLast_append_of_getLast? l '\n' hlast).symm

theorem token_to_pass_matches (u : Bool) (cj : Option String) (st t : String)
    (h : token_to_pass u cj st = some t) : jwtMatchStr t = true := by
  unfold token_to_pass at h
  split at h
  · split at h
    · split at h
      · rename_i j h1
        obtain rfl : j = t := by injection h
        simp only [Bool.and_eq_true] at h1
        exact h1.2
      · cases h
    · cases h
  · split at h
    · rename_i h1
      obtain rfl : st = t := by injection h
      simp only [Bool.and_eq_true] at h1
      exact h1.2
    · cases h

theorem chargerLoop_ok_trace (fr : FetchResults) (cs : List Nat)
    (h : ∀ c ∈ cs, (∃ y, fr.get_home_charger_status c = Except.ok y) ∧
                   (∃ z, fr.get_home_charger_technical_info c = Except.ok z)) :
    ∀ acc, (chargerLoop fr cs acc).2 =
      cs.flatMap fun c => [FetchEv.chargerStatus c, FetchEv.chargerTech c] := by
  induction cs with
  | nil => intro acc; simp [chargerLoop]
  | cons c rest ih =>
    intro acc
    obtain ⟨⟨y, hy⟩, z, hz⟩ := h c (by simp)
    have hrest := fun c hc => h c (List.mem_cons_of_mem _ hc)
    simp [chargerLoop, hy, hz, ih hrest]

/-- C1, counterexample: with cookie auth off and every fetch failing
`ChargePointInvalidSession` both before and after the re-login, the cycle
performs one re-login and a second fetch attempt, then raises
`UpdateFailed("invalid session after retry")` — a transient failure, not the
"credentials needed" (`ConfigEntryAuthFailed`) condition the claim states. -/
theorem c1_counterexample :
    async_refresh false ⟨frInvalid, frInvalid, .ok⟩ =
      (.updateFailed "invalid session after retry",
       [.account, .loginCall, .account]) ∧
    isCredentialsNeeded (async_refresh false ⟨frInvalid, frInvalid, .ok⟩).1
      = false := by decide

/-- C1, amended: for every refresh cycle that fails with an invalid-session
fault twice in a row (cookie auth off, re-login succeeding), the update
routine performs exactly one re-login and then surfaces a transient
`UpdateFailed("invalid session after retry")` condition — not a
"credentials needed" condition — without a third fetch attempt; and in every
cycle whatsoever at most one re-authentication is performed. -/
theorem c1_amended :
    (∀ client : Client,
        (runFetch client.preLogin).1 = Except.error .invalidSession →
        (runFetch client.postLogin).1 = Except.error .invalidSession →
        client.login = .ok →
        (async_refresh false client).1 =
          .updateFailed "invalid session after retry" ∧
        countLogin (async_refresh false client).2 = 1 ∧
        countAccount (async_refresh false client).2 = 2) ∧
    (∀ (b : Bool) (client : Client),
        countLogin (async_refresh b client).2 ≤ 1) := by
  constructor
  · intro client h1 h2 hl
    have hc1 := runFetch_countLogin client.preLogin
    have hc2 := runFetch_countLogin client.postLogin
    have ha1 := runFetch_countAccount client.preLogin
    have ha2 := runFetch_countAccount client.postLogin
    unfold async_refresh async_update_data async_update_retry
    rcases hpre : runFetch client.preLogin with ⟨o1, tr1⟩
    rcases hpost : runFetch client.postLogin with ⟨o2, tr2⟩
    rw [hpre] at h1 hc1 ha1
    rw [hpost] at h2 hc2 ha2
    simp only at h1 h2 hc1 hc2 ha1 ha2
    subst h1 h2
    simp [hpre, hpost, hl, countLogin_append, countAccount_append,
      countLogin, countAccount, hc1, hc2, ha1, ha2]
  · intro b client
    unfold async_refresh async_update_data
    rcases hpre : runFetch client.preLogin with ⟨o1, tr1⟩
    have hc1 := runFetch_countLogin client.preLogin
    rw [hpre] at hc1
    simp only at hc1
    simp only [hpre]
    cases o1 with
    | ok d => simp [hc1]
    | error e =>
      cases e with
      | communication => simp [hc1]
      | invalidSession =>
        cases b with
        | true => simp [hc1]
        | false =>
          cases hlg : client.login with
          | ok =>
            have hc2 : countLogin (async_update_retry false client.postLogin).2
                = 0 := by
              rw [async_update_retry_trace]
              exact runFetch_countLogin _
            simp [hlg, countLogin_append, countLogin, hc1, hc2]
          | loginError => simp [hlg, countLogin_append, countLogin, hc1]

/-- C1, witness for the amended theorem at a concrete client failing with
invalid-session twice. -/
theorem c1_amended_witness :
    (async_refresh false ⟨frInvalid, frInvalid, .ok⟩).1 =
      .updateFailed "invalid session after retry" ∧
    countLogin (async_refresh false ⟨frInvalid, frInvalid, .ok⟩).2 = 1 ∧
    countAccount (async_refresh false ⟨frInvalid, frInvalid, .ok⟩).2 = 2 :=
  c1_amended.1 ⟨frInvalid, frInvalid, .ok⟩ (by decide) (by decide) rfl

/-- C2, counterexample: with account info and charging status fetched
successfully, a communication fault on the device-list fetch aborts the whole
cycle with a transient `UpdateFailed` — no snapshot with an empty device
mapping and the already-fetched account/status values is returned, contrary
to the claim. -/
theorem c2_counterexample :
    async_refresh false ⟨frChargersFail, frChargersFail, .ok⟩ =
      (.updateFailed "", [.account, .chargingStatus, .homeChargers]) ∧
    isSuccess (async_refresh false ⟨frChargersFail, frChargersFail, .ok⟩).1
      = false := by decide

/-- C2, amended: a fault raised while fetching the device list, or while
fetching one device's status or technical info, is not tolerated: it aborts
the whole `try` body with that fault, so a communication fault there
surfaces the cycle as a transient `UpdateFailed` and no snapshot (in
particular no snapshot with a partial or empty device mapping) is produced. -/
theorem c2_amended :
    (∀ client : Client,
        (runFetch client.preLogin).1 = Except.error .communication →
        (async_refresh false client).1 = .updateFailed "" ∧
        isSuccess (async_refresh false client).1 = false) ∧
    (∀ (fr : FetchResults) (a : ChargePointAccount)
        (st? : Option UserChargingStatus),
        fr.get_account = .ok a →
        fr.get_user_charging_status = .ok st? →
        (∀ s, st? = some s →
          ∃ x, fr.get_charging_session s.session_id = Except.ok x) →
        fr.get_home_chargers = .error .communication →
        (runFetch fr).1 = Except.error .communication) ∧
    (∀ (fr : FetchResults) (a : ChargePointAccount)
        (st? : Option UserChargingStatus) (c : Nat) (rest : List Nat),
        fr.get_account = .ok a →
        fr.get_user_charging_status = .ok st? →
        (∀ s, st? = some s →
          ∃ x, fr.get_charging_session s.session_id = Except.ok x) →
        fr.get_home_chargers = .ok (c :: rest) →
        fr.get_home_charger_status c = .error .communication →
        (runFetch fr).1 = Except.error .communication) := by
  refine ⟨?_, ?_, ?_⟩
  · intro client h
    unfold async_refresh async_update_data
    rcases hpre : runFetch client.preLogin with ⟨o1, tr1⟩
    rw [hpre] at h
    simp only at h
    subst h
    simp [isSuccess]
  · intro fr a st? ha hs hsess hc
    unfold runFetch
    rw [ha, hs]
    cases st? with
    | none => simp [hc]
    | some s =>
      obtain ⟨x, hx⟩ := hsess s rfl
      simp [hx, hc]
  · intro fr a st? c rest ha hs hsess hc hcs
    unfold runFetch
    rw [ha, hs]
    cases st? with
    | none => simp [hc, chargerLoop, hcs]
    | some s =>
      obtain ⟨x, hx⟩ := hsess s rfl
      simp [hx, hc, chargerLoop, hcs]

/-- C2, witness for the amended theorem at concrete fetch tables: the
device-list fault and the single-device fault both abort the cycle. -/
theorem c2_amended_witness :
    ((async_refresh false ⟨frChargersFail, frChargersFail, .ok⟩).1 =
       .updateFailed "" ∧
     isSuccess (async_refresh false ⟨frChargersFail, frChargersFail, .ok⟩).1
       = false) ∧
    (runFetch frCharger5Fails).1 = Except.error .communication :=
  ⟨c2_amended.1 ⟨frChargersFail, frChargersFail, .ok⟩ (by decide),
   c2_amended.2.2 frCharger5Fails ⟨1⟩ none 5 [7] (by decide) (by decide)
     (by intro s h; cases h) (by decide) (by decide)⟩

/-- C3, counterexample: the stored token `"a.b.c\n"` contains a non-URL-safe
character (a newline), so it fails the claim's three-segment shape check, yet
the setup path forwards it to the client constructor: Python's `$` in
`_JWT_RE` also matches just before a single trailing newline. -/
theorem c3_counterexample :
    token_to_pass false none "a.b.c\n" = some "a.b.c\n" ∧
    jwtShapeStr "a.b.c\n" = false := by decide

/-- C3, amended: the setup path forwards a candidate bearer token to the
client constructor only if it decomposes into exactly three dot-separated
non-empty segments of URL-safe characters, optionally followed by one
trailing newline (the extra case Python's `$` admits); everything else is
treated as absent. -/
theorem c3_amended (u : Bool) (cj : Option String) (st t : String)
    (h : token_to_pass u cj st = some t) :
    ∃ a b c, segOk a = true ∧ segOk b = true ∧ segOk c = true ∧
      (t.toList = a ++ '.' :: (b ++ '.' :: c) ∨
       t.toList = (a ++ '.' :: (b ++ '.' :: c)) ++ ['\n']) := by
  have hm := token_to_pass_matches u cj st t h
  exact jwtReMatch_decomp _ hm

/-- C3, witness for the amended theorem: the forwarded stored token
`"a.b.c"` decomposes as required. -/
theorem c3_amended_witness :
    ∃ a b c, segOk a = true ∧ segOk b = true ∧ segOk c = true ∧
      (String.toList "a.b.c" = a ++ '.' :: (b ++ '.' :: c) ∨
       String.toList "a.b.c" = (a ++ '.' :: (b ++ '.' :: c)) ++ ['\n']) :=
  c3_amended false none "a.b.c" "a.b.c" (by decide)

/-- C4, confirmed: in cookie-auth mode an invalid-session fault is surfaced
immediately as `ConfigEntryAuthFailed("cookie_expired")` with no re-login
call and no second fetch attempt; and in the config flow, a login failure
whose non-JSON response text carries an anti-bot marker is classified
`"antibot_challenge"`, which the cookie-auth step escalates by re-showing the
credentials form with that distinct reason. -/
theorem c4_no_auto_retry :
    (∀ client : Client,
        (runFetch client.preLogin).1 = Except.error .invalidSession →
        (async_refresh true client).1 = .authFailed "cookie_expired" ∧
        countLogin (async_refresh true client).2 = 0 ∧
        countAccount (async_refresh true client).2 = 1) ∧
    (∀ (t : String) (hc : Bool), hasAntibotMarkers t = true →
        config_flow_login (.loginError ⟨none, some t⟩) hc =
          (none, some "antibot_challenge")) ∧
    cookie_step_outcome (none, some "antibot_challenge") =
      .showForm "antibot_challenge" := by
  refine ⟨?_, ?_, rfl⟩
  · intro client h
    have hc1 := runFetch_countLogin client.preLogin
    have ha1 := runFetch_countAccount client.preLogin
    unfold async_refresh async_update_data
    rcases hpre : runFetch client.preLogin with ⟨o1, tr1⟩
    rw [hpre] at h hc1 ha1
    simp only at h hc1 ha1
    subst h
    simp [hc1, ha1]
  · intro t hc h
    simp [config_flow_login, classifyLoginError, h]

/-- C4, witness: a concrete invalid-session cycle in cookie-auth mode and a
concrete DataDome challenge text. -/
theorem c4_no_auto_retry_witness :
    ((async_refresh true ⟨frInvalid, frInvalid, .ok⟩).1 =
       .authFailed "cookie_expired" ∧
     countLogin (async_refresh true ⟨frInvalid, frInvalid, .ok⟩).2 = 0 ∧
     countAccount (async_refresh true ⟨frInvalid, frInvalid, .ok⟩).2 = 1) ∧
    config_flow_login (.loginError ⟨none, some "DataDome says no"⟩) false =
      (none, some "antibot_challenge") :=
  ⟨c4_no_auto_retry.1 ⟨frInvalid, frInvalid, .ok⟩ (by decide),
   c4_no_auto_retry.2.1 "DataDome says no" false (by decide)⟩

/-- C5, confirmed: a successful fetch attempt issues its calls in the fixed
order account info, user charging status, (only when a charging status is
present) the session detail for that status's session id, the device list,
then for each listed device its status followed by its technical info; the
session-detail fetch occurs exactly when the charging status is present. -/
theorem c5_fetch_order (fr : FetchResults) (a : ChargePointAccount)
    (st? : Option UserChargingStatus) (cs : List Nat)
    (ha : fr.get_account = .ok a)
    (hs : fr.get_user_charging_status = .ok st?)
    (hsess : ∀ s, st? = some s →
      ∃ x, fr.get_charging_session s.session_id = Except.ok x)
    (hc : fr.get_home_chargers = .ok cs)
    (hcs : ∀ c ∈ cs, (∃ y, fr.get_home_charger_status c = Except.ok y) ∧
                     (∃ z, fr.get_home_charger_technical_info c = Except.ok z)) :
    (runFetch fr).2 =
      [FetchEv.account, FetchEv.chargingStatus] ++ sessEvts st? ++
      [FetchEv.homeChargers] ++
      (cs.flatMap fun c => [FetchEv.chargerStatus c, FetchEv.chargerTech c]) ∧
    ((∃ sid, FetchEv.chargingSession sid ∈ (runFetch fr).2) ↔ st? ≠ none) := by
  have hloop := chargerLoop_ok_trace fr cs hcs []
  have htr : (runFetch fr).2 =
      [FetchEv.account, FetchEv.chargingStatus] ++ sessEvts st? ++
      [FetchEv.homeChargers] ++
      (cs.flatMap fun c => [FetchEv.chargerStatus c, FetchEv.chargerTech c]) := by
    unfold runFetch
    cases st? with
    | none =>
      rw [ha, hs]
      rcases h4 : (chargerLoop fr cs []).1 with e | crgs <;>
        simp [hc, h4, hloop, sessEvts]
    | some s =>
      obtain ⟨x, hx⟩ := hsess s rfl
      rw [ha, hs]
      rcases h4 : (chargerLoop fr cs []).1 with e | crgs <;>
        simp [hx, hc, h4, hloop, sessEvts]
  refine ⟨htr, ?_⟩
  rw [htr]
  cases st? with
  | none =>
    simp only [ne_eq, not_true_eq_false, iff_false, not_exists]
    intro sid
    simp [List.mem_flatMap, sessEvts]
  | some s =>
    simp only [ne_eq, reduceCtorEq, not_false_eq_true, iff_true]
    exact ⟨s.session_id, by simp [sessEvts]⟩

/-- C5, witness: the fully successful fetch table with an active session and
two chargers produces exactly the specified call order. -/
theorem c5_fetch_order_witness :
    (runFetch frOk).2 =
      [FetchEv.account, FetchEv.chargingStatus] ++
      sessEvts (some ⟨42⟩) ++
      [FetchEv.homeChargers] ++
      ([5, 7].flatMap fun c => [FetchEv.chargerStatus c, FetchEv.chargerTech c]) ∧
    ((∃ sid, FetchEv.chargingSession sid ∈ (runFetch frOk).2) ↔
      (some (⟨42⟩ : UserChargingStatus) ≠ none)) :=
  c5_fetch_order frOk ⟨1⟩ (some ⟨42⟩) [5, 7] rfl rfl
    (by intro s h; injection h with h2; subst h2; exact ⟨⟨42, 5⟩, rfl⟩)
    rfl
    (by intro c hc; exact ⟨⟨⟨c⟩, rfl⟩, ⟨"v1"⟩, rfl⟩)

/-- C6, counterexample: a record carrying the explicit domain `example.com`
is not set with that domain verbatim; `load_cookies` never reads the record's
domain field and replicates the cookie across the fixed subdomain list
instead. -/
theorem c6_counterexample :
    load_cookies_jar [⟨some "a", some "1", some "example.com", some "/"⟩] =
      (cpDomains.map fun d => ("a", "1", d)) ∧
    (load_cookies_jar
        [⟨some "a", some "1", some "example.com", some "/"⟩]).contains
      ("a", "1", "example.com") = false := by decide

/-- C6, amended: when applying imported cookie records to the jar, every
record with a present non-empty name and present value — whether or not it
carries an explicit domain — is replicated across exactly the fixed known
set of service subdomains: every jar entry's domain belongs to that set, and
each kept record produces one entry per member of the set.  The record's own
domain field is ignored. -/
theorem c6_amended (data : List CookieRecord) :
    (∀ e ∈ load_cookies_jar data, e.2.2 ∈ cpDomains) ∧
    (∀ r ∈ data, ∀ n v, r.name = some n → n ≠ "" → r.value = some v →
      ∀ d ∈ cpDomains, (n, v, d) ∈ load_cookies_jar data) := by
  constructor
  · intro e he
    unfold load_cookies_jar at he
    rw [List.mem_flatMap] at he
    obtain ⟨r, hr, he⟩ := he
    rcases hn : r.name with _ | n <;> rcases hv : r.value with _ | v <;>
      rw [hn, hv] at he <;> simp only at he
    · cases he
    · cases he
    · cases he
    · by_cases hne : n = ""
      · rw [if_pos hne] at he
        cases he
      · rw [if_neg hne] at he
        rw [List.mem_map] at he
        obtain ⟨d, hd, rfl⟩ := he
        simpa using hd
  · intro r hr n v hn hne hv d hd
    unfold load_cookies_jar
    rw [List.mem_flatMap]
    refine ⟨r, hr, ?_⟩
    rw [hn, hv]
    simp only [if_neg hne]
    rw [List.mem_map]
    exact ⟨d, hd, rfl⟩

/-- C6, witness: a domain-less record is replicated onto each fixed
subdomain, here `ca.chargepoint.com`. -/
theorem c6_amended_witness :
    ("session", "tok", "ca.chargepoint.com") ∈
      load_cookies_jar [⟨some "session", some "tok", none, none⟩] :=
  (c6_amended [⟨some "session", some "tok", none, none⟩]).2
    ⟨some "session", some "tok", none, none⟩ (by decide) "session" "tok" rfl
    (by decide) rfl "ca.chargepoint.com" (by decide)

/-- C7, counterexample: the raw input of five characters quote, a, equals,
one, quote is valid JSON — a JSON string, not a list — yet the cookie
introduction does not fail with a format error: the input does not start
with a bracket, so it is parsed as a header string, and the sole segment
contains an equals sign, so it succeeds with one (garbled) record. -/
theorem c7_counterexample :
    save_cookies_json (fun _ => .notJson) "\"a=1\"" =
      .ok [⟨some "\"a", some "1\"", some ".chargepoint.com", some "/"⟩] := by
  decide

/-- C7, amended: an input empty after trimming fails with a format error; an
input starting with `[` fails when its JSON parse is not a list; any other
input — including JSON that is not a list — is treated as a header string and
fails with a format error exactly when no `;`-segment contains `=`; and
records missing a name (or with an empty name) or missing a value are skipped
individually when the records are applied to the jar, leaving the remaining
records imported. -/
theorem c7_amended (jl : String → JsonResult) (raw : String)
    (data : List CookieRecord) :
    (pyStrip raw.toList = [] → save_cookies_json jl raw = .error .empty) ∧
    ((pyStrip raw.toList).head? = some '[' →
        jl (String.mk (pyStrip raw.toList)) = .jsonNonList →
        save_cookies_json jl raw = .error .nonListJson) ∧
    (pyStrip raw.toList ≠ [] → (pyStrip raw.toList).head? ≠ some '[' →
        parse_header (String.mk (pyStrip raw.toList)) = [] →
        save_cookies_json jl raw = .error .headerUnparsable) ∧
    load_cookies_jar data = load_cookies_jar (data.filter validRecord) := by
  refine ⟨?_, ?_, ?_, ?_⟩
  · intro h
    simp only [String.toList] at h
    unfold save_cookies_json
    simp [h]
  · intro hhead hjson
    simp only [String.toList] at hhead hjson
    unfold save_cookies_json
    have hne : pyStrip raw.data ≠ [] := by
      intro hl
      rw [hl] at hhead
      cases hhead
    simp [hne, hhead, hjson, String.mk]
  · intro hne hhead hparse
    simp only [String.toList] at hne hhead hparse
    unfold save_cookies_json
    simp [hne, hhead, hparse, String.mk]
  · have hcons : ∀ (r : CookieRecord) (rest : List CookieRecord),
        load_cookies_jar (r :: rest) =
          (match r.name, r.value with
           | some n, some v =>
             if n = "" then [] else cpDomains.map fun d => (n, v, d)
           | _, _ => []) ++ load_cookies_jar rest := fun _ _ => rfl
    induction data with
    | nil => rfl
    | cons r rest ih =>
      rw [List.filter_cons]
      by_cases hval : validRecord r = true
      · rw [if_pos hval, hcons, hcons, ih]
      · rw [if_neg (by simp [hval]), hcons, ih]
        have hnil : (match r.name, r.value with
            | some n, some v =>
              if n = "" then [] else cpDomains.map fun d => (n, v, d)
            | _, _ => ([] : List (String × String × String))) = [] := by
          unfold validRecord at hval
          rcases hn : r.name with _ | n <;> rcases hv : r.value with _ | v <;>
            simp_all
        rw [hnil, List.nil_append]

/-- C7, witness: a header-like input with no `name=value` segment fails, and
jar application of a record list skips exactly the partial record. -/
theorem c7_amended_witness :
    save_cookies_json (fun _ => .jsonNonList) "x" = .error .headerUnparsable ∧
    load_cookies_jar
        [⟨none, some "1", none, none⟩, ⟨some "b", some "2", none, none⟩] =
      load_cookies_jar
        (([⟨none, some "1", none, none⟩,
           ⟨some "b", some "2", none, none⟩]).filter validRecord) :=
  ⟨(c7_amended (fun _ => .jsonNonList) "x" []).2.2.1 (by decide) (by decide)
     (by decide),
   (c7_amended (fun _ => .notJson) ""
     [⟨none, some "1", none, none⟩, ⟨some "b", some "2", none, none⟩]).2.2.2⟩

/-- C8, confirmed: parsing the header string `"a=1; b=2"` yields exactly two
records named `a` and `b` with values `1` and `2` (with the parser's fixed
default domain and path), and applying them to the jar replicates each of the
two cookies across all known service subdomains. -/
theorem c8_roundtrip :
    parse_header "a=1; b=2" =
      [⟨some "a", some "1", some ".chargepoint.com", some "/"⟩,
       ⟨some "b", some "2", some ".chargepoint.com", some "/"⟩] ∧
    load_cookies_jar (parse_header "a=1; b=2") =
      (cpDomains.map fun d => ("a", "1", d)) ++
      (cpDomains.map fun d => ("b", "2", d)) := by decide

/-- C9, confirmed: after `apply_scoped_patch`, the patched `ChargePoint.login`
returns `True` for all arguments and performs no remote request; its only
effects are installing the shared scraper as the client's HTTP session and
setting the four logged-in flags. -/
theorem c9_patched_login (scraper : Nat) (c : PyClient) (args : List String) :
    patched_login scraper c args =
      (true,
       { the_session := some scraper, flag_logged_in := true,
         flag_logged_in_pub := true, flag_is_logged_in := true,
         flag_authenticated := true },
       []) := by
  cases c with
  | mk ts f1 f2 f3 f4 =>
    unfold patched_login inject set_logged_flags
    by_cases h : ts = some scraper
    · simp [h]
    · simp [h]

/-- C10, confirmed: `_has_auth_cookies` is not a global of the monkeypatch
module, so the fallback import in `_login` raises `ImportError` and is
swallowed: with the constructed client's session token absent and no
exception, `_login` returns `(None, None)`; the synthetic cookie token is
never produced by the fallback; and the cookie-auth step then falls through
to the generic `auth_failed` form error. -/
theorem c10_fallback_unreachable :
    monkeypatch_globals.contains "_has_auth_cookies" = false ∧
    (∀ hc : Bool, config_flow_login (.ok none) hc = (none, none)) ∧
    (∀ (tok : Option String) (hc : Bool), cookie_fallback tok hc = (tok, none)) ∧
    cookie_step_outcome (none, none) = .showForm "auth_failed" := by
  have hafc : monkeypatch_globals.contains "_has_auth_cookies" = false := by
    decide
  have hmem : "_has_auth_cookies" ∉ monkeypatch_globals := by decide
  refine ⟨hafc, ?_, ?_, rfl⟩
  · intro hc
    simp [config_flow_login, cookie_fallback, hmem]
  · intro tok hc
    simp [cookie_fallback, hmem]

end ChargePoint
